import Mathlib

/-!
Shallow embedding of the `weather` Django app (ikayroni/testeVagaPython):
the cache-aside weather lookup service (`weather/services.py`), the two
background jobs (`weather/tasks.py`), the `WeatherQuery` model constraints
(`weather/models.py`), the request serializers (`weather/serializers.py`)
and the two relevant views (`weather/views.py`).

Conventions of the embedding:
* Python strings are Lean `String`; `str.lower`/`str.upper`/`str.strip` are
  modelled character-wise on the ASCII and Latin-1 letter ranges (the ranges
  exercised by this app's inputs such as "São Paulo").
* JSON numbers are modelled as `ℚ` (they are carried opaquely, never
  computed with).
* Python exceptions become an explicit `PyErr` error type threaded through
  `Except`; `dict[k]` on a possibly-missing key is `req`, `list[0]` is
  `idx0`.
* The Django cache collaborator is a key/value list with absolute expiry
  times; `cache.set` at time `t` with `ttl` stores expiry `t + ttl`, and
  `cache.get` at time `t2` hits iff `t2 < expiry` (LocMem/Redis semantics:
  the stored value is a serialized copy, so later mutation of the returned
  dict does not affect the store).
* The history store (`WeatherQuery` table) is a list in insertion order;
  `query_timestamp` is `auto_now_add`, so "newest first"
  (`order_by` on descending creation, ties by insertion id) is the reverse
  of insertion order.
* The outbound HTTP call is an oracle `HttpResult` supplied as data; the
  number of actual provider requests issued is counted explicitly.
-/

namespace WeatherApp

/-- Python single-quote character (code 39), as printed by `str(KeyError(k))`. -/
def sq : String := String.singleton (Char.ofNat 39)

/-- `str.lower` on one character: ASCII `A`–`Z` and Latin-1 `À`–`Þ`
(except `×`, U+00D7) map down by 32; everything else is unchanged. -/
def pyLowerChar (c : Char) : Char :=
  if 65 ≤ c.toNat ∧ c.toNat ≤ 90 then Char.ofNat (c.toNat + 32)
  else if 192 ≤ c.toNat ∧ c.toNat ≤ 222 ∧ c.toNat ≠ 215 then Char.ofNat (c.toNat + 32)
  else c

/-- `str.lower`, applied character-wise. -/
def pyLower (s : String) : String := String.mk (s.data.map pyLowerChar)

/-- `str.upper` on one character (ASCII `a`–`z` and Latin-1 `à`–`þ`
except `÷`, U+00F7). -/
def pyUpperChar (c : Char) : Char :=
  if 97 ≤ c.toNat ∧ c.toNat ≤ 122 then Char.ofNat (c.toNat - 32)
  else if 224 ≤ c.toNat ∧ c.toNat ≤ 254 ∧ c.toNat ≠ 247 then Char.ofNat (c.toNat - 32)
  else c

/-- `str.upper`, applied character-wise. -/
def pyUpper (s : String) : String := String.mk (s.data.map pyUpperChar)

/-- Python `str.isspace` on one character (`Py_UNICODE_ISSPACE`): the
Unicode whitespace set stripped by `str.strip()` and by `int()`. -/
def pyIsSpace (c : Char) : Bool :=
  let n := c.toNat
  decide ((9 ≤ n ∧ n ≤ 13) ∨ (28 ≤ n ∧ n ≤ 32) ∨ n = 133 ∨ n = 160 ∨ n = 5760 ∨
    (8192 ≤ n ∧ n ≤ 8202) ∨ n = 8232 ∨ n = 8233 ∨ n = 8239 ∨ n = 8287 ∨ n = 12288)

/-- `str.strip()`: drop Unicode whitespace from both ends. -/
def pyStrip (s : String) : String :=
  String.mk ((s.data.dropWhile pyIsSpace).reverse.dropWhile pyIsSpace).reverse

/-- Python truthiness of an optional string: `None` and `""` are falsy. -/
def pyTruthyOpt (o : Option String) : Bool :=
  match o with
  | none => false
  | some s => s != ""

/-- The dict produced by `WeatherService._parse_weather_data` (plus the
`cached` key, which is absent (`none`) right after parsing and is added
by `get_weather`). -/
structure WeatherData where
  city : String
  country : String
  temperature : ℚ
  feels_like : ℚ
  humidity : ℚ
  pressure : ℚ
  description : String
  icon : String
  wind_speed : ℚ
  wind_direction : ℚ
  visibility : ℚ
  timestamp : String
  cached : Option Bool
deriving DecidableEq

/-- Python exceptions raised by the code under study. -/
inductive PyErr where
  | valueError (msg : String)
  | keyError (key : String)
  | indexError
  | fieldError (field : String)
  | integrityError (field : String)
deriving DecidableEq

/-- `data["sys"]` object of the provider payload. -/
structure SysObj where
  country : Option String
deriving DecidableEq

/-- `data["main"]` object of the provider payload. -/
structure MainObj where
  temp : Option ℚ
  feels_like : Option ℚ
  humidity : Option ℚ
  pressure : Option ℚ
deriving DecidableEq

/-- One element of the `data["weather"]` array. -/
structure WeatherObj where
  description : Option String
  icon : Option String
deriving DecidableEq

/-- `data["wind"]` object of the provider payload. -/
structure WindObj where
  speed : Option ℚ
  deg : Option ℚ
deriving DecidableEq

/-- A provider JSON payload; `none` means the key is absent. -/
structure Payload where
  name : Option String
  sys : Option SysObj
  main : Option MainObj
  weather : Option (List WeatherObj)
  wind : Option WindObj
  visibility : Option ℚ
deriving DecidableEq

/-- `dict[k]`: raises `KeyError(k)` when the key is absent. -/
def req {α : Type} (o : Option α) (k : String) : Except PyErr α :=
  match o with
  | some v => .ok v
  | none => .error (.keyError k)

/-- `list[0]`: raises `IndexError` on an empty list. -/
def idx0 {α : Type} (l : List α) : Except PyErr α :=
  match l with
  | v :: _ => .ok v
  | [] => .error .indexError

/-- Message of the `ValueError` raised by `_parse_weather_data` for a
missing key `k`: Python formats `str(KeyError(k))` with single quotes. -/
def incompleteMsg (k : String) : String :=
  "Dados da API incompletos: " ++ sq ++ k ++ sq

/-- Body of the `try` block of `WeatherService._parse_weather_data`:
the dict-literal fields are evaluated in source order, the first missing
key raising `KeyError`. -/
def parseRawWeatherData (now : String) (data : Payload) : Except PyErr WeatherData := do
  let city ← req data.name "name"
  let sysObj ← req data.sys "sys"
  let country ← req sysObj.country "country"
  let mainObj ← req data.main "main"
  let temperature ← req mainObj.temp "temp"
  let feels ← req mainObj.feels_like "feels_like"
  let humidity ← req mainObj.humidity "humidity"
  let pressure ← req mainObj.pressure "pressure"
  let weatherArr ← req data.weather "weather"
  let w0 ← idx0 weatherArr
  let description ← req w0.description "description"
  let icon ← req w0.icon "icon"
  let windObj ← req data.wind "wind"
  let speed ← req windObj.speed "speed"
  .ok { city := city
        country := country
        temperature := temperature
        feels_like := feels
        humidity := humidity
        pressure := pressure
        description := description
        icon := icon
        wind_speed := speed
        wind_direction := windObj.deg.getD 0
        visibility := data.visibility.getD 0
        timestamp := now
        cached := none }

/-- `WeatherService._parse_weather_data`: a `KeyError` is caught and
re-raised as `ValueError("Dados da API incompletos: ...")`; any other
exception (the `IndexError` from `data["weather"][0]` on an empty array)
propagates unchanged. -/
def parse_weather_data (now : String) (data : Payload) : Except PyErr WeatherData :=
  match parseRawWeatherData now data with
  | .error (.keyError k) => .error (.valueError (incompleteMsg k))
  | .error e => .error e
  | .ok r => .ok r

/-- The first required provider key missing from `p`, in the evaluation
order of the dict literal in `_parse_weather_data`; `none` when no
required key is missing — including the case `weather == []`, where the
parse instead raises `IndexError` before looking at any later key. -/
def firstMissingRequiredKey (p : Payload) : Option String :=
  match p.name with
  | none => some "name"
  | some _ =>
  match p.sys with
  | none => some "sys"
  | some sysObj =>
  match sysObj.country with
  | none => some "country"
  | some _ =>
  match p.main with
  | none => some "main"
  | some m =>
  match m.temp with
  | none => some "temp"
  | some _ =>
  match m.feels_like with
  | none => some "feels_like"
  | some _ =>
  match m.humidity with
  | none => some "humidity"
  | some _ =>
  match m.pressure with
  | none => some "pressure"
  | some _ =>
  match p.weather with
  | none => some "weather"
  | some [] => none
  | some (w :: _) =>
  match w.description with
  | none => some "description"
  | some _ =>
  match w.icon with
  | none => some "icon"
  | some _ =>
  match p.wind with
  | none => some "wind"
  | some windObj =>
  match windObj.speed with
  | none => some "speed"
  | some _ => none

/-- `WeatherService._make_cache_key`. -/
def make_cache_key (city : String) (country : Option String) : String :=
  if pyTruthyOpt country then
    "weather:" ++ pyLower city ++ ":" ++ pyLower (country.getD "")
  else
    "weather:" ++ pyLower city

/-- Outcome of the single `requests.get` call, supplied as an oracle. -/
inductive HttpResult where
  | timeout
  | connectionError
  | requestException (msg : String)
  | response (status : ℕ) (body : Payload)

/-- Message of `str(requests.HTTPError)` raised by `raise_for_status` for a
non-2xx status other than 404/401 (collaborator model; no claim depends on
its exact shape). -/
def httpErrorText (s : ℕ) : String := toString s ++ " Error"

/-- Message of the `ValueError` for a missing API key. -/
def configErrorMsg : String := "API key do OpenWeatherMap não configurada"

/-- Message of the `ValueError` for a provider 404. -/
def cityNotFoundMsg (city : String) : String :=
  "Cidade " ++ sq ++ city ++ sq ++ " não encontrada"

/-- Result of `_fetch_from_api` together with the number of provider HTTP
requests actually issued (0 when the call aborts before `requests.get`). -/
structure FetchResult where
  outcome : Except PyErr WeatherData
  providerCalls : ℕ

/-- `WeatherService._fetch_from_api`: checks the API key before any
network activity, then maps the transport outcome exactly as the
`try`/`except` chain in the source does. -/
def fetch_from_api (apiKey : Option String) (city : String) (country : Option String)
    (http : HttpResult) (now : String) : FetchResult :=
  if pyTruthyOpt apiKey then
    match http with
    | .timeout => ⟨.error (.valueError "Timeout ao buscar dados meteorológicos"), 1⟩
    | .connectionError => ⟨.error (.valueError "Erro de conexão com a API"), 1⟩
    | .requestException m => ⟨.error (.valueError ("Erro ao buscar dados: " ++ m)), 1⟩
    | .response st body =>
      if st = 404 then ⟨.error (.valueError (cityNotFoundMsg city)), 1⟩
      else if st = 401 then ⟨.error (.valueError "API key inválida"), 1⟩
      else if 400 ≤ st then
        ⟨.error (.valueError ("Erro ao buscar dados: " ++ httpErrorText st)), 1⟩
      else ⟨parse_weather_data now body, 1⟩
  else ⟨.error (.valueError configErrorMsg), 0⟩

/-- The Django cache collaborator: entries `(key, value, absoluteExpiry)`. -/
abbrev Cache := List (String × WeatherData × ℕ)

/-- `cache.get(key)` at absolute time `t`: a stored entry is visible iff
`t` is strictly before its expiry. -/
def cacheGet (c : Cache) (t : ℕ) (k : String) : Option WeatherData :=
  match c.find? (fun e => e.1 == k) with
  | some e => if t < e.2.2 then some e.2.1 else none
  | none => none

/-- `cache.set(key, value, ttl)` at absolute time `t`. -/
def cacheSet (c : Cache) (t : ℕ) (k : String) (v : WeatherData) (ttl : ℕ) : Cache :=
  (k, v, t + ttl) :: c.filter (fun e => e.1 != k)

/-- A job put on the Celery queue by the code under study. -/
inductive Job where
  | persistHistory (city : String) (country : Option String) (record : WeatherData)
      (ip : String) (ua : Option String)
  | trimHistory
deriving DecidableEq

/-- Per-request environment of one `get_weather` call: the configured API
key, the outcome the network would produce, the current wall-clock ISO
string, and the current cache clock. -/
structure LookupCtx where
  apiKey : Option String
  http : HttpResult
  now : String
  time : ℕ

/-- Result of one `WeatherService.get_weather` call: the returned dict (or
the propagated exception), the cache state afterwards, the background jobs
enqueued, and the number of provider HTTP requests issued. -/
structure LookupResult where
  outcome : Except PyErr WeatherData
  cache : Cache
  jobs : List Job
  providerCalls : ℕ

/-- `WeatherService.get_weather`.  `cache.set` runs before the `cached`
key is added to the returned dict, so the stored copy (and the payload of
the enqueued job, serialized at `.delay` time) has `cached = none`; the
history job is enqueued only when `ip_address` is truthy.  The
`cache_timeout` is 600. -/
def get_weather (ctx : LookupCtx) (cache : Cache) (city : String) (country : Option String)
    (ip_address : Option String) (user_agent : Option String) : LookupResult :=
  let key := make_cache_key city country
  match cacheGet cache ctx.time key with
  | some v => ⟨.ok { v with cached := some true }, cache, [], 0⟩
  | none =>
    let f := fetch_from_api ctx.apiKey city country ctx.http ctx.now
    match f.outcome with
    | .error e => ⟨.error e, cache, [], f.providerCalls⟩
    | .ok wd =>
      ⟨.ok { wd with cached := some false },
       cacheSet cache ctx.time key wd 600,
       if pyTruthyOpt ip_address then
         [Job.persistHistory city country wd (ip_address.getD "") user_agent]
       else [],
       f.providerCalls⟩

/-- The `city` field of `WeatherRequestSerializer`: DRF trims whitespace,
rejects blank, enforces `max_length=100`; `validate_city` then requires at
least 2 characters and returns the stripped value. -/
def validateCityField (raw : String) : Option String :=
  let v := pyStrip raw
  if 2 ≤ v.length ∧ v.length ≤ 100 then some v else none

/-- The optional `country` field: absent stays absent; a provided value is
trimmed, must be non-blank and (after `max_length=2` plus
`validate_country`) exactly 2 characters, and is upper-cased. -/
def validateCountryField (raw : Option String) : Except Unit (Option String) :=
  match raw with
  | none => .ok none
  | some s =>
    let v := pyStrip s
    if v.length = 2 then .ok (some (pyUpper v)) else .error ()

/-- `WeatherRequestSerializer.is_valid` plus `validated_data` extraction:
`none` means validation failed (the view returns its 400 with field
details). -/
def validateRequest (city : Option String) (country : Option String) :
    Option (String × Option String) :=
  match city with
  | none => none
  | some c =>
    match validateCityField c, validateCountryField country with
    | some v, .ok co => some (v, co)
    | _, _ => none

/-- Body of an HTTP response of the lookup view. -/
inductive ViewBody where
  | validationError
  | errorMessage (msg : String)
  | weather (record : WeatherData)
  | internalError
deriving DecidableEq

/-- Result of one request to the lookup view: HTTP status, body, the cache
afterwards, the background jobs enqueued, and the provider requests
issued. -/
structure ViewResult where
  status : ℕ
  body : ViewBody
  cache : Cache
  jobs : List Job
  providerCalls : ℕ

/-- The `get_weather` view (`weather/views.py`): validates the query
parameters, runs the service, returns 200 with the record, 400 with
`str(e)` on `ValueError`, and 500 on any other exception. -/
def get_weather_view (ctx : LookupCtx) (cache : Cache) (rawCity rawCountry : Option String)
    (ip ua : Option String) : ViewResult :=
  match validateRequest rawCity rawCountry with
  | none => ⟨400, .validationError, cache, [], 0⟩
  | some (city, country) =>
    let r := get_weather ctx cache city country ip ua
    match r.outcome with
    | .ok wd => ⟨200, .weather wd, r.cache, r.jobs, r.providerCalls⟩
    | .error (.valueError m) => ⟨400, .errorMessage m, r.cache, r.jobs, r.providerCalls⟩
    | .error _ => ⟨500, .internalError, r.cache, r.jobs, r.providerCalls⟩

/-- A row of the `WeatherQuery` table (`weather/models.py`), with its
auto-assigned id (insertion order). `query_timestamp` is `auto_now_add`,
so creation order coincides with insertion order and is captured by the
position in the store list. -/
structure HistoryEntry where
  id : ℕ
  city : String
  country : String
  temperature : ℚ
  feels_like : ℚ
  humidity : ℚ
  pressure : ℚ
  description : String
  icon : String
  wind_speed : ℚ
  wind_direction : ℚ
  visibility : ℚ
  uv_index : ℚ
  ip_address : Option String
  user_agent : String
deriving DecidableEq

/-- The history store: `WeatherQuery` rows in insertion (= creation)
order. -/
abbrev HistoryDb := List HistoryEntry

/-- Keyword arguments of a `WeatherQuery.objects.create` call; `none`
means the keyword was not passed. -/
structure WQKwargs where
  city : Option String := none
  country : Option String := none
  temperature : Option ℚ := none
  feels_like : Option ℚ := none
  humidity : Option ℚ := none
  pressure : Option ℚ := none
  description : Option String := none
  icon : Option String := none
  wind_speed : Option ℚ := none
  wind_direction : Option ℚ := none
  visibility : Option ℚ := none
  uv_index : Option ℚ := none
  ip_address : Option String := none
  user_agent : Option String := none

/-- The numeric `WeatherQuery` columns that are NOT NULL and carry no
model default (`temperature`, `feels_like`, `humidity`, `pressure`):
omitting any of them from `objects.create` makes Django insert NULL and
the database raise `IntegrityError`.  Returns the first violated column in
declaration order.  (Character fields default to `""`, `wind_speed`,
`wind_direction`, `visibility`, `uv_index` default to 0, and `ip_address`
is nullable, so none of those can violate.) -/
def firstNullViolation (kw : WQKwargs) : Option String :=
  if kw.temperature.isNone then some "temperature"
  else if kw.feels_like.isNone then some "feels_like"
  else if kw.humidity.isNone then some "humidity"
  else if kw.pressure.isNone then some "pressure"
  else none

/-- `WeatherQuery.objects.create(**kw)`: either raises `IntegrityError`
for the first NOT NULL violation, or appends one row (with Django's field
defaults filled in) and returns the new store and the new row's id. -/
def weatherQueryCreate (db : HistoryDb) (kw : WQKwargs) : Except PyErr (HistoryDb × ℕ) :=
  match firstNullViolation kw with
  | some f => .error (.integrityError f)
  | none =>
    let e : HistoryEntry :=
      { id := db.length
        city := kw.city.getD ""
        country := kw.country.getD ""
        temperature := kw.temperature.getD 0
        feels_like := kw.feels_like.getD 0
        humidity := kw.humidity.getD 0
        pressure := kw.pressure.getD 0
        description := kw.description.getD ""
        icon := kw.icon.getD ""
        wind_speed := kw.wind_speed.getD 0
        wind_direction := kw.wind_direction.getD 0
        visibility := kw.visibility.getD 0
        uv_index := kw.uv_index.getD 0
        ip_address := kw.ip_address
        user_agent := kw.user_agent.getD "" }
    .ok (db ++ [e], db.length)

/-- `save_weather_query_async` (`weather/tasks.py`): creates one
`WeatherQuery` row from the lookup, then enqueues `cleanup_old_queries`;
a failure is logged and re-raised (nothing is appended, nothing
enqueued).  On success returns the new store, the new row id, and the
enqueued jobs. -/
def save_weather_query_async (db : HistoryDb) (city : String) (country : Option String)
    (weather_data : WeatherData) (ip_address : Option String) (user_agent : Option String) :
    Except PyErr (HistoryDb × ℕ × List Job) :=
  let kw : WQKwargs :=
    { city := some city
      country := some (country.getD "")
      temperature := some weather_data.temperature
      description := some weather_data.description
      ip_address := some (ip_address.getD "")
      user_agent := some (user_agent.getD "") }
  match weatherQueryCreate db kw with
  | .error e => .error e
  | .ok (db2, qid) => .ok (db2, qid, [Job.trimHistory])

/-- The fields onto which a `WeatherQuery` queryset keyword can resolve
(model fields of `weather/models.py` plus the automatic `id`). -/
def weatherQueryFields : List String :=
  ["id", "city", "country", "temperature", "feels_like", "humidity", "pressure",
   "description", "icon", "wind_speed", "wind_direction", "visibility",
   "uv_index", "query_timestamp", "ip_address", "user_agent"]

/-- Resolution of an `order_by` keyword by the Django ORM: a leading `-`
selects descending order; an unknown field name raises `FieldError` when
the queryset is evaluated. -/
def resolveOrderField (f : String) : Except PyErr String :=
  let base :=
    match f.data with
    | '-' :: rest => String.mk rest
    | _ => f
  if base ∈ weatherQueryFields then .ok base else .error (.fieldError base)

/-- `cleanup_old_queries` (`weather/tasks.py`): orders by `-created_at`,
keeps the first 100 ids and deletes the rest, returning the deleted
count.  `created_at` is not a field of `WeatherQuery`, so evaluating the
queryset raises `FieldError`, which the task logs and re-raises; the
trim branch (keep the 100 newest, i.e. the last 100 inserted) is
unreachable. -/
def cleanup_old_queries (db : HistoryDb) : Except PyErr (HistoryDb × ℕ) :=
  match resolveOrderField "-created_at" with
  | .error e => .error e
  | .ok _ =>
    let keepIds := (db.reverse.take 100).map HistoryEntry.id
    let kept := db.filter (fun e => keepIds.contains e.id)
    .ok (kept, db.length - kept.length)

/-- The decimal value of a Unicode decimal-digit (Nd) character, exactly
the set CPython `int()` accepts as a digit (it transforms every Nd code
point to its ASCII digit before parsing); non-decimal digit-like
characters such as `²` are rejected.  Ranges generated from the Unicode
character database. -/
def pyDecimalVal (c : Char) : Option ℕ :=
  let n := c.toNat
  if 48 ≤ n ∧ n ≤ 57 then some (n - 48)
  else if 1632 ≤ n ∧ n ≤ 1641 then some (n - 1632)
  else if 1776 ≤ n ∧ n ≤ 1785 then some (n - 1776)
  else if 1984 ≤ n ∧ n ≤ 1993 then some (n - 1984)
  else if 2406 ≤ n ∧ n ≤ 2415 then some (n - 2406)
  else if 2534 ≤ n ∧ n ≤ 2543 then some (n - 2534)
  else if 2662 ≤ n ∧ n ≤ 2671 then some (n - 2662)
  else if 2790 ≤ n ∧ n ≤ 2799 then some (n - 2790)
  else if 2918 ≤ n ∧ n ≤ 2927 then some (n - 2918)
  else if 3046 ≤ n ∧ n ≤ 3055 then some (n - 3046)
  else if 3174 ≤ n ∧ n ≤ 3183 then some (n - 3174)
  else if 3302 ≤ n ∧ n ≤ 3311 then some (n - 3302)
  else if 3430 ≤ n ∧ n ≤ 3439 then some (n - 3430)
  else if 3558 ≤ n ∧ n ≤ 3567 then some (n - 3558)
  else if 3664 ≤ n ∧ n ≤ 3673 then some (n - 3664)
  else if 3792 ≤ n ∧ n ≤ 3801 then some (n - 3792)
  else if 3872 ≤ n ∧ n ≤ 3881 then some (n - 3872)
  else if 4160 ≤ n ∧ n ≤ 4169 then some (n - 4160)
  else if 4240 ≤ n ∧ n ≤ 4249 then some (n - 4240)
  else if 6112 ≤ n ∧ n ≤ 6121 then some (n - 6112)
  else if 6160 ≤ n ∧ n ≤ 6169 then some (n - 6160)
  else if 6470 ≤ n ∧ n ≤ 6479 then some (n - 6470)
  else if 6608 ≤ n ∧ n ≤ 6617 then some (n - 6608)
  else if 6784 ≤ n ∧ n ≤ 6793 then some (n - 6784)
  else if 6800 ≤ n ∧ n ≤ 6809 then some (n - 6800)
  else if 6992 ≤ n ∧ n ≤ 7001 then some (n - 6992)
  else if 7088 ≤ n ∧ n ≤ 7097 then some (n - 7088)
  else if 7232 ≤ n ∧ n ≤ 7241 then some (n - 7232)
  else if 7248 ≤ n ∧ n ≤ 7257 then some (n - 7248)
  else if 42528 ≤ n ∧ n ≤ 42537 then some (n - 42528)
  else if 43216 ≤ n ∧ n ≤ 43225 then some (n - 43216)
  else if 43264 ≤ n ∧ n ≤ 43273 then some (n - 43264)
  else if 43472 ≤ n ∧ n ≤ 43481 then some (n - 43472)
  else if 43504 ≤ n ∧ n ≤ 43513 then some (n - 43504)
  else if 43600 ≤ n ∧ n ≤ 43609 then some (n - 43600)
  else if 44016 ≤ n ∧ n ≤ 44025 then some (n - 44016)
  else if 65296 ≤ n ∧ n ≤ 65305 then some (n - 65296)
  else if 66720 ≤ n ∧ n ≤ 66729 then some (n - 66720)
  else if 68912 ≤ n ∧ n ≤ 68921 then some (n - 68912)
  else if 69734 ≤ n ∧ n ≤ 69743 then some (n - 69734)
  else if 69872 ≤ n ∧ n ≤ 69881 then some (n - 69872)
  else if 69942 ≤ n ∧ n ≤ 69951 then some (n - 69942)
  else if 70096 ≤ n ∧ n ≤ 70105 then some (n - 70096)
  else if 70384 ≤ n ∧ n ≤ 70393 then some (n - 70384)
  else if 70736 ≤ n ∧ n ≤ 70745 then some (n - 70736)
  else if 70864 ≤ n ∧ n ≤ 70873 then some (n - 70864)
  else if 71248 ≤ n ∧ n ≤ 71257 then some (n - 71248)
  else if 71360 ≤ n ∧ n ≤ 71369 then some (n - 71360)
  else if 71472 ≤ n ∧ n ≤ 71481 then some (n - 71472)
  else if 71904 ≤ n ∧ n ≤ 71913 then some (n - 71904)
  else if 72016 ≤ n ∧ n ≤ 72025 then some (n - 72016)
  else if 72784 ≤ n ∧ n ≤ 72793 then some (n - 72784)
  else if 73040 ≤ n ∧ n ≤ 73049 then some (n - 73040)
  else if 73120 ≤ n ∧ n ≤ 73129 then some (n - 73120)
  else if 92768 ≤ n ∧ n ≤ 92777 then some (n - 92768)
  else if 92864 ≤ n ∧ n ≤ 92873 then some (n - 92864)
  else if 93008 ≤ n ∧ n ≤ 93017 then some (n - 93008)
  else if 120782 ≤ n ∧ n ≤ 120791 then some (n - 120782)
  else if 120792 ≤ n ∧ n ≤ 120801 then some (n - 120792)
  else if 120802 ≤ n ∧ n ≤ 120811 then some (n - 120802)
  else if 120812 ≤ n ∧ n ≤ 120821 then some (n - 120812)
  else if 120822 ≤ n ∧ n ≤ 120831 then some (n - 120822)
  else if 123200 ≤ n ∧ n ≤ 123209 then some (n - 123200)
  else if 123632 ≤ n ∧ n ≤ 123641 then some (n - 123632)
  else if 125264 ≤ n ∧ n ≤ 125273 then some (n - 125264)
  else if 130032 ≤ n ∧ n ≤ 130041 then some (n - 130032)
  else none

/-- Digit run continuation of CPython `int()`: after a first digit, a
single underscore may separate digits (`1_0` parses, `1__0` and a
trailing `1_` do not). -/
def pyIntDigits : List Char → ℕ → Option ℕ
  | [], acc => some acc
  | '_' :: c :: cs, acc =>
    match pyDecimalVal c with
    | some d => pyIntDigits cs (acc * 10 + d)
    | none => none
  | c :: cs, acc =>
    match pyDecimalVal c with
    | some d => pyIntDigits cs (acc * 10 + d)
    | none => none

/-- A digit run of CPython `int()`: non-empty, starts with a digit (not
an underscore), underscores only between digits. -/
def digitsParse (l : List Char) : Option ℕ :=
  match l with
  | [] => none
  | c :: cs =>
    match pyDecimalVal c with
    | some d => pyIntDigits cs d
    | none => none

/-- `int(s)`, returning `none` where Python raises `ValueError`: Unicode
whitespace is stripped, an optional ASCII sign precedes a non-empty run
of Unicode decimal digits with optional underscore separators. -/
def pyInt (s : String) : Option Int :=
  match (pyStrip s).data with
  | [] => none
  | c :: rest =>
    if c = '-' then (digitsParse rest).map (fun n => -(n : Int))
    else if c = '+' then (digitsParse rest).map (fun n => (n : Int))
    else (digitsParse (c :: rest)).map (fun n => (n : Int))

/-- `WeatherService.get_weather_history`: `limit` defaults to 10; returns
the rows newest first (descending `query_timestamp`, which by
`auto_now_add` is the reverse of insertion order), truncated to
`limit`. -/
def get_weather_history (db : HistoryDb) (limit : Option Int) : List HistoryEntry :=
  let l := limit.getD 10
  db.reverse.take l.toNat

/-- Body of an HTTP response of the history view. -/
inductive HistoryBody where
  | errorMessage (msg : String)
  | entries (items : List HistoryEntry)
deriving DecidableEq

/-- The `get_history` view (`weather/views.py`): a falsy `limit`
parameter (absent or empty string) is ignored; otherwise it is parsed
with `int`, rejected when non-numeric or `<= 0`, clamped to 100, and the
service is called. -/
def get_history_view (db : HistoryDb) (limitParam : Option String) : ℕ × HistoryBody :=
  if pyTruthyOpt limitParam then
    match pyInt (limitParam.getD "") with
    | none => (400, .errorMessage "Limit deve ser um número")
    | some n =>
      if n ≤ 0 then (400, .errorMessage "Limit deve ser positivo")
      else
        let n2 : Int := if 100 < n then 100 else n
        (200, .entries (get_weather_history db (some n2)))
  else (200, .entries (get_weather_history db none))

deriving instance DecidableEq for Except

/-! ## Concrete sample inputs (used by the witnesses) -/

/-- The provider payload used throughout the repository's own tests. -/
def samplePayload : Payload :=
  { name := some "São Paulo"
    sys := some { country := some "BR" }
    main := some { temp := some 25.5, feels_like := some 27.2, humidity := some 65,
                   pressure := some 1013 }
    weather := some [{ description := some "poucas nuvens", icon := some "02d" }]
    wind := some { speed := some 3.5, deg := some 180 }
    visibility := some 10000 }

/-- `samplePayload` with the required `description` key removed. -/
def payloadNoDescription : Payload :=
  { samplePayload with weather := some [{ description := none, icon := some "02d" }] }

def sampleNow : String := "2024-01-01T00:00:00"

/-- A first-request environment: key configured, provider answers 200. -/
def sampleCtxOk : LookupCtx := ⟨some "test-key", .response 200 samplePayload, sampleNow, 0⟩

/-- A later environment (599 time units on), in which the network would
time out if it were consulted. -/
def sampleCtxLater : LookupCtx := ⟨some "test-key", .timeout, "2024-01-01T00:09:59", 599⟩

/-- The record `get_weather` returns for `samplePayload` on a miss. -/
def sampleRecord : WeatherData :=
  { city := "São Paulo", country := "BR", temperature := 25.5, feels_like := 27.2,
    humidity := 65, pressure := 1013, description := "poucas nuvens", icon := "02d",
    wind_speed := 3.5, wind_direction := 180, visibility := 10000,
    timestamp := sampleNow, cached := some false }

/-- What the cache stores for that record (`cache.set` runs before the
`cached` key is added, so the stored copy has no `cached` key). -/
def sampleStored : WeatherData := { sampleRecord with cached := none }

/-- A one-entry cache holding `sampleStored` until time 600. -/
def sampleHitCache : Cache := [(make_cache_key "São Paulo" (some "BR"), sampleStored, 600)]

/-! ## Helper lemmas -/

theorem cacheGet_cacheSet_lt (c : Cache) (t t2 : ℕ) (k : String) (v : WeatherData)
    (ttl : ℕ) (h : t2 < t + ttl) : cacheGet (cacheSet c t k v ttl) t2 k = some v := by
  unfold cacheGet cacheSet
  rw [List.find?_cons_of_pos _ (by simp)]
  simp [h]

theorem pyLowerChar_idem (c : Char) : pyLowerChar (pyLowerChar c) = pyLowerChar c := by
  by_cases h1 : 65 ≤ c.toNat ∧ c.toNat ≤ 90
  · have e1 : pyLowerChar c = Char.ofNat (c.toNat + 32) := by
      unfold pyLowerChar
      rw [if_pos h1]
    rw [e1]
    obtain ⟨ha, hb⟩ := h1
    revert ha hb
    generalize c.toNat = n
    intro ha hb
    interval_cases n <;> decide
  · by_cases h2 : 192 ≤ c.toNat ∧ c.toNat ≤ 222 ∧ c.toNat ≠ 215
    · have e1 : pyLowerChar c = Char.ofNat (c.toNat + 32) := by
        unfold pyLowerChar
        rw [if_neg h1, if_pos h2]
      rw [e1]
      obtain ⟨ha, hb, _⟩ := h2
      revert ha hb
      generalize c.toNat = n
      intro ha hb
      interval_cases n <;> decide
    · have e1 : pyLowerChar c = c := by
        unfold pyLowerChar
        rw [if_neg h1, if_neg h2]
      rw [e1]
      exact e1

theorem map_pyLowerChar_idem (l : List Char) :
    (l.map pyLowerChar).map pyLowerChar = l.map pyLowerChar := by
  induction l with
  | nil => rfl
  | cons c cs ih => simp [ih, pyLowerChar_idem]

theorem pyLower_idem (s : String) : pyLower (pyLower s) = pyLower s :=
  congrArg String.mk (map_pyLowerChar_idem s.data)

theorem pyLower_length (s : String) : (pyLower s).length = s.length := by
  cases s with
  | mk data => simp [pyLower, String.length]

theorem pyLower_empty_iff (s : String) : pyLower s = "" ↔ s = "" := by
  constructor
  · intro h
    have hl : (pyLower s).length = 0 := by rw [h]; decide
    rw [pyLower_length] at hl
    cases s with
    | mk data =>
      have : data = [] := List.length_eq_zero.mp hl
      rw [this]
  · intro h
    rw [h]
    rfl

theorem pyTruthy_some_iff (s : String) : pyTruthyOpt (some s) = true ↔ s ≠ "" := by
  simp [pyTruthyOpt]

theorem make_cache_key_pyLower_city (city : String) (co : Option String) :
    make_cache_key (pyLower city) co = make_cache_key city co := by
  unfold make_cache_key
  rw [pyLower_idem]

theorem make_cache_key_pyLower_country (city v : String) :
    make_cache_key city (some (pyLower v)) = make_cache_key city (some v) := by
  by_cases hv : v = ""
  · rw [hv]
    rfl
  · have h1 : pyTruthyOpt (some v) = true := (pyTruthy_some_iff v).mpr hv
    have h2 : pyTruthyOpt (some (pyLower v)) = true :=
      (pyTruthy_some_iff (pyLower v)).mpr (fun h => hv ((pyLower_empty_iff v).mp h))
    simp only [make_cache_key, h1, h2, if_true, Option.getD_some, pyLower_idem]

/-! ## Claim theorems -/

/-- C4: the derived cache key is case-folded on the city and on the
country when present (so `"São Paulo"` and `"são paulo"` produce the same
key), and for every city the key derived from a pair with a present
(truthy, hence non-empty) country differs from the key derived with no
country. -/
theorem make_cache_key_caseFolded_and_country_distinct (city c : String) (co : Option String) :
    make_cache_key (pyLower city) co = make_cache_key city co ∧
    make_cache_key city (co.map pyLower) = make_cache_key city co ∧
    make_cache_key "São Paulo" co = make_cache_key "são paulo" co ∧
    (c ≠ "" → make_cache_key city (some c) ≠ make_cache_key city none) := by
  refine ⟨make_cache_key_pyLower_city city co, ?_, ?_, ?_⟩
  · cases co with
    | none => rfl
    | some v => exact make_cache_key_pyLower_country city v
  · have h : pyLower "São Paulo" = "são paulo" := by decide
    rw [← make_cache_key_pyLower_city "São Paulo" co, h]
  · intro hc heq
    have h1 : pyTruthyOpt (some c) = true := (pyTruthy_some_iff c).mpr hc
    have hkey1 : make_cache_key city (some c) = "weather:" ++ pyLower city ++ ":" ++ pyLower c := by
      simp [make_cache_key, h1]
    have hkey2 : make_cache_key city none = "weather:" ++ pyLower city := by
      simp [make_cache_key, pyTruthyOpt]
    rw [hkey1, hkey2] at heq
    have hlen := congrArg String.length heq
    simp only [String.length_append] at hlen
    have hc1 : (pyLower c).length = c.length := pyLower_length c
    have hcolon : (":" : String).length = 1 := rfl
    omega

/-- C4 witness: the theorem instantiated at `"São Paulo"`/`"BR"`. -/
theorem make_cache_key_caseFolded_witness :
    make_cache_key (pyLower "São Paulo") (some "BR") = make_cache_key "São Paulo" (some "BR") ∧
    make_cache_key "São Paulo" (some "BR") ≠ make_cache_key "São Paulo" none :=
  ⟨(make_cache_key_caseFolded_and_country_distinct "São Paulo" "BR" (some "BR")).1,
   (make_cache_key_caseFolded_and_country_distinct "São Paulo" "BR" (some "BR")).2.2.2
     (by decide)⟩

/-- C2 (code bug): the trim job `cleanup_old_queries` orders by
`-created_at`, but `created_at` is not a field of `WeatherQuery` (the
creation timestamp is `query_timestamp`), so the Django ORM raises
`FieldError` on every single run: no trim ever succeeds, nothing is ever
deleted, and no count is ever returned. -/
theorem cleanup_old_queries_always_raises (db : HistoryDb) :
    cleanup_old_queries db = .error (.fieldError "created_at") := rfl

/-- C5 (code bug): the persist job `save_weather_query_async` calls
`WeatherQuery.objects.create` without `feels_like` (nor `humidity` /
`pressure`), all NOT NULL columns without defaults, so every invocation
raises `IntegrityError` at the insert: no history entry is ever appended
and no trim job is ever enqueued. -/
theorem save_weather_query_async_always_raises (db : HistoryDb) (city : String)
    (country : Option String) (wd : WeatherData) (ip ua : Option String) :
    save_weather_query_async db city country wd ip ua = .error (.integrityError "feels_like") :=
  rfl

/-- C10: on every cache hit `get_weather` returns the stored record with
only the `cached` field changed (set to `true`); every other field of the
returned record equals the corresponding field of the stored value, and
the hit touches neither the cache, nor the job queue, nor the provider. -/
theorem get_weather_hit_frame (ctx : LookupCtx) (cache : Cache) (city : String)
    (country ip ua : Option String) (v : WeatherData)
    (hhit : cacheGet cache ctx.time (make_cache_key city country) = some v) :
    (get_weather ctx cache city country ip ua).outcome = .ok { v with cached := some true } ∧
    (get_weather ctx cache city country ip ua).cache = cache ∧
    (get_weather ctx cache city country ip ua).jobs = [] ∧
    (get_weather ctx cache city country ip ua).providerCalls = 0 ∧
    ∀ r, (get_weather ctx cache city country ip ua).outcome = .ok r →
      r.city = v.city ∧ r.country = v.country ∧ r.temperature = v.temperature ∧
      r.feels_like = v.feels_like ∧ r.humidity = v.humidity ∧ r.pressure = v.pressure ∧
      r.description = v.description ∧ r.icon = v.icon ∧ r.wind_speed = v.wind_speed ∧
      r.wind_direction = v.wind_direction ∧ r.visibility = v.visibility ∧
      r.timestamp = v.timestamp ∧ r.cached = some true := by
  have hgw : get_weather ctx cache city country ip ua =
      ⟨.ok { v with cached := some true }, cache, [], 0⟩ := by
    simp only [get_weather, hhit]
  refine ⟨by rw [hgw], by rw [hgw], by rw [hgw], by rw [hgw], ?_⟩
  intro r hr
  rw [hgw] at hr
  simp only [Except.ok.injEq] at hr
  rw [← hr]
  simp

/-- C10 witness: the theorem at a concrete one-entry cache. -/
theorem get_weather_hit_frame_witness :
    (get_weather ⟨some "test-key", .timeout, sampleNow, 0⟩ sampleHitCache "São Paulo"
        (some "BR") none none).outcome = .ok { sampleStored with cached := some true } ∧
    (get_weather ⟨some "test-key", .timeout, sampleNow, 0⟩ sampleHitCache "São Paulo"
        (some "BR") none none).jobs = [] :=
  ⟨(get_weather_hit_frame ⟨some "test-key", .timeout, sampleNow, 0⟩ sampleHitCache
      "São Paulo" (some "BR") none none sampleStored rfl).1,
   (get_weather_hit_frame ⟨some "test-key", .timeout, sampleNow, 0⟩ sampleHitCache
      "São Paulo" (some "BR") none none sampleStored rfl).2.2.1⟩

/-- C3: on a cache miss whose provider call fails (with any error kind),
`get_weather` propagates the error, stores nothing in the cache and
enqueues no history job: cache and job queue are unchanged by a failed
lookup. -/
theorem get_weather_failure_frame (ctx : LookupCtx) (cache : Cache) (city : String)
    (country ip ua : Option String) (e : PyErr)
    (hmiss : cacheGet cache ctx.time (make_cache_key city country) = none)
    (hfail : (fetch_from_api ctx.apiKey city country ctx.http ctx.now).outcome = .error e) :
    (get_weather ctx cache city country ip ua).outcome = .error e ∧
    (get_weather ctx cache city country ip ua).cache = cache ∧
    (get_weather ctx cache city country ip ua).jobs = [] := by
  have hgw : get_weather ctx cache city country ip ua =
      ⟨.error e, cache, [],
       (fetch_from_api ctx.apiKey city country ctx.http ctx.now).providerCalls⟩ := by
    simp only [get_weather, hmiss, hfail]
  exact ⟨by rw [hgw], by rw [hgw], by rw [hgw]⟩

/-- C3 witness: a timed-out first lookup at concrete inputs. -/
theorem get_weather_failure_frame_witness :
    (get_weather ⟨some "test-key", .timeout, sampleNow, 0⟩ [] "Nowhere" none
        (some "1.1.1.1") none).outcome =
      .error (.valueError "Timeout ao buscar dados meteorológicos") ∧
    (get_weather ⟨some "test-key", .timeout, sampleNow, 0⟩ [] "Nowhere" none
        (some "1.1.1.1") none).cache = [] ∧
    (get_weather ⟨some "test-key", .timeout, sampleNow, 0⟩ [] "Nowhere" none
        (some "1.1.1.1") none).jobs = [] :=
  get_weather_failure_frame ⟨some "test-key", .timeout, sampleNow, 0⟩ [] "Nowhere" none
    (some "1.1.1.1") none (.valueError "Timeout ao buscar dados meteorológicos") rfl rfl

/-- C9: with the provider credential unconfigured (falsy), a lookup that
reaches the provider path (valid parameters, cache miss) fails with the
configuration `ValueError`, surfaced by the view as HTTP 400, with zero
provider HTTP requests issued — the same outcome whatever the network
oracle would have answered and however (in)valid the city is upstream. -/
theorem missing_api_key_yields_400 (apiKey : Option String) (http : HttpResult)
    (now : String) (time : ℕ) (cache : Cache) (rawCity : String)
    (rawCountry : Option String) (city : String) (country ip ua : Option String)
    (hkey : pyTruthyOpt apiKey = false)
    (hvalid : validateRequest (some rawCity) rawCountry = some (city, country))
    (hmiss : cacheGet cache time (make_cache_key city country) = none) :
    get_weather_view ⟨apiKey, http, now, time⟩ cache (some rawCity) rawCountry ip ua =
      ⟨400, .errorMessage configErrorMsg, cache, [], 0⟩ := by
  have hfetch : fetch_from_api apiKey city country http now =
      ⟨.error (.valueError configErrorMsg), 0⟩ := by
    simp [fetch_from_api, hkey]
  have hgw : get_weather ⟨apiKey, http, now, time⟩ cache city country ip ua =
      ⟨.error (.valueError configErrorMsg), cache, [], 0⟩ := by
    simp only [get_weather, hmiss, hfetch]
  simp only [get_weather_view, hvalid, hgw]

/-- C9 witness: unconfigured key, valid city, empty cache; the network
oracle would have timed out but is never consulted. -/
theorem missing_api_key_yields_400_witness :
    get_weather_view ⟨none, .timeout, sampleNow, 0⟩ [] (some "São Paulo") none
        (some "1.2.3.4") none =
      ⟨400, .errorMessage configErrorMsg, [], [], 0⟩ :=
  missing_api_key_yields_400 none .timeout sampleNow 0 [] "São Paulo" none "São Paulo"
    none (some "1.2.3.4") none rfl rfl rfl

/-- C7: for a lookup reaching the provider client (valid parameters,
configured key, cache miss): a provider 404 is surfaced as HTTP 400 with
the "não encontrada" (not found) message naming the city, a provider 401
as HTTP 400 with the invalid-credential message, and a request timeout as
HTTP 400 with the timeout message. -/
theorem provider_errors_surfaced_as_400 (apiKey : Option String) (now : String)
    (time : ℕ) (cache : Cache) (rawCity : String) (rawCountry : Option String)
    (city : String) (country ip ua : Option String) (body : Payload)
    (hkey : pyTruthyOpt apiKey = true)
    (hvalid : validateRequest (some rawCity) rawCountry = some (city, country))
    (hmiss : cacheGet cache time (make_cache_key city country) = none) :
    get_weather_view ⟨apiKey, .response 404 body, now, time⟩ cache (some rawCity)
        rawCountry ip ua =
      ⟨400, .errorMessage (cityNotFoundMsg city), cache, [], 1⟩ ∧
    get_weather_view ⟨apiKey, .response 401 body, now, time⟩ cache (some rawCity)
        rawCountry ip ua =
      ⟨400, .errorMessage "API key inválida", cache, [], 1⟩ ∧
    get_weather_view ⟨apiKey, .timeout, now, time⟩ cache (some rawCity) rawCountry ip ua =
      ⟨400, .errorMessage "Timeout ao buscar dados meteorológicos", cache, [], 1⟩ := by
  refine ⟨?_, ?_, ?_⟩
  · have hfetch : fetch_from_api apiKey city country (.response 404 body) now =
        ⟨.error (.valueError (cityNotFoundMsg city)), 1⟩ := by
      simp [fetch_from_api, hkey]
    have hgw : get_weather ⟨apiKey, .response 404 body, now, time⟩ cache city country ip ua =
        ⟨.error (.valueError (cityNotFoundMsg city)), cache, [], 1⟩ := by
      simp only [get_weather, hmiss, hfetch]
    simp only [get_weather_view, hvalid, hgw]
  · have hfetch : fetch_from_api apiKey city country (.response 401 body) now =
        ⟨.error (.valueError "API key inválida"), 1⟩ := by
      simp [fetch_from_api, hkey]
    have hgw : get_weather ⟨apiKey, .response 401 body, now, time⟩ cache city country ip ua =
        ⟨.error (.valueError "API key inválida"), cache, [], 1⟩ := by
      simp only [get_weather, hmiss, hfetch]
    simp only [get_weather_view, hvalid, hgw]
  · have hfetch : fetch_from_api apiKey city country .timeout now =
        ⟨.error (.valueError "Timeout ao buscar dados meteorológicos"), 1⟩ := by
      simp [fetch_from_api, hkey]
    have hgw : get_weather ⟨apiKey, .timeout, now, time⟩ cache city country ip ua =
        ⟨.error (.valueError "Timeout ao buscar dados meteorológicos"), cache, [], 1⟩ := by
      simp only [get_weather, hmiss, hfetch]
    simp only [get_weather_view, hvalid, hgw]

/-- C7 witness: the theorem at concrete inputs (the country parameter is
normalized `"br"` to `"BR"` by validation). -/
theorem provider_errors_surfaced_as_400_witness :
    get_weather_view ⟨some "test-key", .response 404 samplePayload, sampleNow, 0⟩ []
        (some "São Paulo") (some "br") none none =
      ⟨400, .errorMessage (cityNotFoundMsg "São Paulo"), [], [], 1⟩ ∧
    get_weather_view ⟨some "test-key", .timeout, sampleNow, 0⟩ []
        (some "São Paulo") (some "br") none none =
      ⟨400, .errorMessage "Timeout ao buscar dados meteorológicos", [], [], 1⟩ :=
  ⟨(provider_errors_surfaced_as_400 (some "test-key") sampleNow 0 [] "São Paulo"
      (some "br") "São Paulo" (some "BR") none none samplePayload rfl (by decide)
      (by decide)).1,
   (provider_errors_surfaced_as_400 (some "test-key") sampleNow 0 [] "São Paulo"
      (some "br") "São Paulo" (some "BR") none none samplePayload rfl (by decide)
      (by decide)).2.2⟩

/-- C1: a first (cache-miss) successful lookup returns `cached = false`;
a repeated lookup with the same normalized cache key before the 600-unit
TTL elapses returns the same record with `cached = true`, issues zero
provider calls and enqueues no history job. -/
theorem first_miss_then_cached_hit (ctx ctx2 : LookupCtx) (cache : Cache)
    (city city2 : String) (country country2 ip ua ip2 ua2 : Option String)
    (r : WeatherData)
    (hmiss : cacheGet cache ctx.time (make_cache_key city country) = none)
    (hok : (get_weather ctx cache city country ip ua).outcome = .ok r)
    (hkey : make_cache_key city2 country2 = make_cache_key city country)
    (httl : ctx2.time < ctx.time + 600) :
    r.cached = some false ∧
    (get_weather ctx2 (get_weather ctx cache city country ip ua).cache city2 country2
        ip2 ua2).outcome = .ok { r with cached := some true } ∧
    (get_weather ctx2 (get_weather ctx cache city country ip ua).cache city2 country2
        ip2 ua2).providerCalls = 0 ∧
    (get_weather ctx2 (get_weather ctx cache city country ip ua).cache city2 country2
        ip2 ua2).jobs = [] := by
  cases hf : (fetch_from_api ctx.apiKey city country ctx.http ctx.now).outcome with
  | error e =>
    have : (get_weather ctx cache city country ip ua).outcome = .error e := by
      simp only [get_weather, hmiss, hf]
    rw [this] at hok
    simp at hok
  | ok wd =>
    have hgw : get_weather ctx cache city country ip ua =
        ⟨.ok { wd with cached := some false },
         cacheSet cache ctx.time (make_cache_key city country) wd 600,
         if pyTruthyOpt ip then
           [Job.persistHistory city country wd (ip.getD "") ua]
         else [],
         (fetch_from_api ctx.apiKey city country ctx.http ctx.now).providerCalls⟩ := by
      simp only [get_weather, hmiss, hf]
    rw [hgw] at hok
    simp only [Except.ok.injEq] at hok
    subst hok
    have hhit : cacheGet (cacheSet cache ctx.time (make_cache_key city country) wd 600)
        ctx2.time (make_cache_key city2 country2) = some wd := by
      rw [hkey]
      exact cacheGet_cacheSet_lt cache ctx.time ctx2.time (make_cache_key city country)
        wd 600 httl
    have hgw2 : get_weather ctx2
        (cacheSet cache ctx.time (make_cache_key city country) wd 600) city2 country2
        ip2 ua2 = ⟨.ok { wd with cached := some true },
          cacheSet cache ctx.time (make_cache_key city country) wd 600, [], 0⟩ := by
      simp only [get_weather, hhit]
    rw [hgw]
    simp only [hgw2]
    simp

/-- C1 witness: first lookup at time 0 against the empty cache, repeat at
time 599 with the differently-cased key; the second environment's network
would time out but is never consulted. -/
theorem first_miss_then_cached_hit_witness :
    sampleRecord.cached = some false ∧
    (get_weather sampleCtxLater
        (get_weather sampleCtxOk [] "São Paulo" (some "BR") (some "1.2.3.4")
          (some "UA")).cache "são paulo" (some "br") none none).outcome =
      .ok { sampleRecord with cached := some true } ∧
    (get_weather sampleCtxLater
        (get_weather sampleCtxOk [] "São Paulo" (some "BR") (some "1.2.3.4")
          (some "UA")).cache "são paulo" (some "br") none none).providerCalls = 0 ∧
    (get_weather sampleCtxLater
        (get_weather sampleCtxOk [] "São Paulo" (some "BR") (some "1.2.3.4")
          (some "UA")).cache "são paulo" (some "br") none none).jobs = [] :=
  first_miss_then_cached_hit sampleCtxOk sampleCtxLater [] "São Paulo" "são paulo"
    (some "BR") (some "br") (some "1.2.3.4") (some "UA") none none sampleRecord
    rfl rfl (by decide) (by decide)

/-- C6: whenever a required key (name, country, temperature, feels-like,
humidity, pressure, description, icon, wind speed — resolved in the dict
access order of the source) is missing from a provider payload, the parse
fails with the malformed-response `ValueError` naming the missing key;
on success, every required output field is the payload's own value (never
a substituted default), while the optional wind direction and visibility
default to 0 when absent. -/
theorem parse_required_and_optional_fields (now : String) (p : Payload) :
    (∀ k, firstMissingRequiredKey p = some k →
      parse_weather_data now p = .error (.valueError (incompleteMsg k))) ∧
    (∀ wd, parse_weather_data now p = .ok wd →
      p.name = some wd.city ∧
      (∃ sysObj, p.sys = some sysObj ∧ sysObj.country = some wd.country) ∧
      (∃ m, p.main = some m ∧ m.temp = some wd.temperature ∧
        m.feels_like = some wd.feels_like ∧ m.humidity = some wd.humidity ∧
        m.pressure = some wd.pressure) ∧
      (∃ w ws, p.weather = some (w :: ws) ∧ w.description = some wd.description ∧
        w.icon = some wd.icon) ∧
      (∃ windObj, p.wind = some windObj ∧ windObj.speed = some wd.wind_speed ∧
        wd.wind_direction = windObj.deg.getD 0) ∧
      wd.visibility = p.visibility.getD 0 ∧ wd.timestamp = now ∧ wd.cached = none) := by
  obtain ⟨nameF, sysF, mainF, weatherF, windF, visF⟩ := p
  cases nameF with
  | none =>
    refine ⟨fun k hk => ?_, fun wd hw => ?_⟩
    · simp only [firstMissingRequiredKey, Option.some.injEq] at hk
      subst hk
      rfl
    · exact Except.noConfusion hw
  | some nm =>
  cases sysF with
  | none =>
    refine ⟨fun k hk => ?_, fun wd hw => ?_⟩
    · simp only [firstMissingRequiredKey, Option.some.injEq] at hk
      subst hk
      rfl
    · exact Except.noConfusion hw
  | some sysObj =>
  obtain ⟨countryF⟩ := sysObj
  cases countryF with
  | none =>
    refine ⟨fun k hk => ?_, fun wd hw => ?_⟩
    · simp only [firstMissingRequiredKey, Option.some.injEq] at hk
      subst hk
      rfl
    · exact Except.noConfusion hw
  | some co =>
  cases mainF with
  | none =>
    refine ⟨fun k hk => ?_, fun wd hw => ?_⟩
    · simp only [firstMissingRequiredKey, Option.some.injEq] at hk
      subst hk
      rfl
    · exact Except.noConfusion hw
  | some mainObj =>
  obtain ⟨tempF, feelsF, humF, presF⟩ := mainObj
  cases tempF with
  | none =>
    refine ⟨fun k hk => ?_, fun wd hw => ?_⟩
    · simp only [firstMissingRequiredKey, Option.some.injEq] at hk
      subst hk
      rfl
    · exact Except.noConfusion hw
  | some tv =>
  cases feelsF with
  | none =>
    refine ⟨fun k hk => ?_, fun wd hw => ?_⟩
    · simp only [firstMissingRequiredKey, Option.some.injEq] at hk
      subst hk
      rfl
    · exact Except.noConfusion hw
  | some fl =>
  cases humF with
  | none =>
    refine ⟨fun k hk => ?_, fun wd hw => ?_⟩
    · simp only [firstMissingRequiredKey, Option.some.injEq] at hk
      subst hk
      rfl
    · exact Except.noConfusion hw
  | some hu =>
  cases presF with
  | none =>
    refine ⟨fun k hk => ?_, fun wd hw => ?_⟩
    · simp only [firstMissingRequiredKey, Option.some.injEq] at hk
      subst hk
      rfl
    · exact Except.noConfusion hw
  | some pr =>
  cases weatherF with
  | none =>
    refine ⟨fun k hk => ?_, fun wd hw => ?_⟩
    · simp only [firstMissingRequiredKey, Option.some.injEq] at hk
      subst hk
      rfl
    · exact Except.noConfusion hw
  | some ws =>
  cases ws with
  | nil =>
    refine ⟨fun k hk => ?_, fun wd hw => ?_⟩
    · simp [firstMissingRequiredKey] at hk
    · exact Except.noConfusion hw
  | cons w ws2 =>
  obtain ⟨descF, iconF⟩ := w
  cases descF with
  | none =>
    refine ⟨fun k hk => ?_, fun wd hw => ?_⟩
    · simp only [firstMissingRequiredKey, Option.some.injEq] at hk
      subst hk
      rfl
    · exact Except.noConfusion hw
  | some ds =>
  cases iconF with
  | none =>
    refine ⟨fun k hk => ?_, fun wd hw => ?_⟩
    · simp only [firstMissingRequiredKey, Option.some.injEq] at hk
      subst hk
      rfl
    · exact Except.noConfusion hw
  | some ic =>
  cases windF with
  | none =>
    refine ⟨fun k hk => ?_, fun wd hw => ?_⟩
    · simp only [firstMissingRequiredKey, Option.some.injEq] at hk
      subst hk
      rfl
    · exact Except.noConfusion hw
  | some windObj =>
  obtain ⟨speedF, degF⟩ := windObj
  cases speedF with
  | none =>
    refine ⟨fun k hk => ?_, fun wd hw => ?_⟩
    · simp only [firstMissingRequiredKey, Option.some.injEq] at hk
      subst hk
      rfl
    · exact Except.noConfusion hw
  | some sp =>
    refine ⟨fun k hk => ?_, fun wd hw => ?_⟩
    · simp [firstMissingRequiredKey] at hk
    · have hp : parse_weather_data now
          ⟨some nm, some ⟨some co⟩, some ⟨some tv, some fl, some hu, some pr⟩,
           some (⟨some ds, some ic⟩ :: ws2), some ⟨some sp, degF⟩, visF⟩ =
          .ok { city := nm, country := co, temperature := tv, feels_like := fl,
                humidity := hu, pressure := pr, description := ds, icon := ic,
                wind_speed := sp, wind_direction := degF.getD 0,
                visibility := visF.getD 0, timestamp := now, cached := none } := rfl
      rw [hp] at hw
      simp only [Except.ok.injEq] at hw
      subst hw
      exact ⟨rfl, ⟨⟨some co⟩, rfl, rfl⟩,
        ⟨⟨some tv, some fl, some hu, some pr⟩, rfl, rfl, rfl, rfl, rfl⟩,
        ⟨⟨some ds, some ic⟩, ws2, rfl, rfl, rfl⟩,
        ⟨⟨some sp, degF⟩, rfl, rfl, rfl⟩, rfl, rfl, rfl⟩

/-- C6 witness: the sample payload without its `description` key parses
to the malformed-response error naming `description`. -/
theorem parse_required_fields_witness :
    parse_weather_data sampleNow payloadNoDescription =
      .error (.valueError (incompleteMsg "description")) :=
  (parse_required_and_optional_fields sampleNow payloadNoDescription).1 "description" rfl

/-- Entries listed newest-first (reverse insertion order, truncated) are
pairwise strictly descending in id whenever the store's ids are strictly
ascending. -/
theorem pairwise_take_reverse (db : HistoryDb) (k : ℕ)
    (h : db.Pairwise (fun a b => a.id < b.id)) :
    (db.reverse.take k).Pairwise (fun a b => b.id < a.id) :=
  List.Pairwise.sublist (List.take_sublist k db.reverse) (List.pairwise_reverse.mpr h)

/-- C8 counterexample: `?limit=` (the parameter present with an empty
value) is falsy in Python, so `get_history` treats it as absent and
answers 200 with the default 10-entry page — not the 400 the claim
requires for a present but non-numeric limit (`int("")` raises
`ValueError`). -/
theorem get_history_empty_limit_counterexample :
    get_history_view [] (some "") = (200, .entries []) ∧
    (get_history_view [] (some "")).1 ≠ 400 := by
  refine ⟨rfl, ?_⟩
  decide

/-- C8 (amended): when `limit` is absent — or present but empty, which
the view treats as absent — the response is 200 with at most 10 entries;
a present, non-empty, non-numeric limit yields 400; a parsed limit ≤ 0
yields 400; a parsed limit > 100 is silently clamped to 100; every
success response is the history newest-first (reverse insertion order),
empty when the store is empty, and with strictly descending ids whenever
the store's ids are strictly ascending. -/
theorem get_history_view_spec (db : HistoryDb) (lp : Option String) :
    ((lp = none ∨ lp = some "") →
      get_history_view db lp = (200, .entries (db.reverse.take 10)) ∧
      (db.reverse.take 10).length ≤ 10) ∧
    (∀ s, lp = some s → s ≠ "" → pyInt s = none →
      get_history_view db lp = (400, .errorMessage "Limit deve ser um número")) ∧
    (∀ s n, lp = some s → s ≠ "" → pyInt s = some n → n ≤ 0 →
      get_history_view db lp = (400, .errorMessage "Limit deve ser positivo")) ∧
    (∀ s n, lp = some s → s ≠ "" → pyInt s = some n → 100 < n →
      get_history_view db lp = (200, .entries (db.reverse.take 100))) ∧
    (∀ s n, lp = some s → s ≠ "" → pyInt s = some n → 0 < n → n ≤ 100 →
      get_history_view db lp = (200, .entries (db.reverse.take n.toNat))) ∧
    (∀ st items, get_history_view db lp = (st, .entries items) →
      (db = [] → items = []) ∧
      (db.Pairwise (fun a b => a.id < b.id) → items.Pairwise (fun a b => b.id < a.id))) := by
  have hlen10 : (db.reverse.take 10).length ≤ 10 := by
    simp only [List.length_take]
    omega
  cases lp with
  | none =>
    have hval : get_history_view db none = (200, .entries (db.reverse.take 10)) := rfl
    refine ⟨fun _ => ⟨hval, hlen10⟩, fun s h => Option.noConfusion h,
      fun s n h => Option.noConfusion h, fun s n h => Option.noConfusion h,
      fun s n h => Option.noConfusion h, fun st items h => ?_⟩
    rw [hval] at h
    simp only [Prod.mk.injEq, HistoryBody.entries.injEq] at h
    rw [← h.2]
    exact ⟨fun hdb => by simp [hdb], fun hp => pairwise_take_reverse db 10 hp⟩
  | some s =>
    by_cases hs : s = ""
    · subst hs
      have hval : get_history_view db (some "") = (200, .entries (db.reverse.take 10)) := rfl
      refine ⟨fun _ => ⟨hval, hlen10⟩, ?_, ?_, ?_, ?_, fun st items h => ?_⟩
      · intro s' h1 h2 _
        simp only [Option.some.injEq] at h1
        exact absurd h1.symm h2
      · intro s' n h1 h2 _ _
        simp only [Option.some.injEq] at h1
        exact absurd h1.symm h2
      · intro s' n h1 h2 _ _
        simp only [Option.some.injEq] at h1
        exact absurd h1.symm h2
      · intro s' n h1 h2 _ _ _
        simp only [Option.some.injEq] at h1
        exact absurd h1.symm h2
      · rw [hval] at h
        simp only [Prod.mk.injEq, HistoryBody.entries.injEq] at h
        rw [← h.2]
        exact ⟨fun hdb => by simp [hdb], fun hp => pairwise_take_reverse db 10 hp⟩
    · have htr : pyTruthyOpt (some s) = true := by simp [pyTruthyOpt, hs]
      cases hpi : pyInt s with
      | none =>
        have hval : get_history_view db (some s) =
            (400, .errorMessage "Limit deve ser um número") := by
          simp [get_history_view, htr, hpi]
        refine ⟨fun h => ?_, fun s' h1 _ _ => ?_, ?_, ?_, ?_, fun st items h => ?_⟩
        · rcases h with h | h
          · exact Option.noConfusion h
          · simp only [Option.some.injEq] at h
            exact absurd h hs
        · exact hval
        · intro s' n h1 _ h3 _
          simp only [Option.some.injEq] at h1
          rw [← h1] at h3
          rw [h3] at hpi
          exact Option.noConfusion hpi
        · intro s' n h1 _ h3 _
          simp only [Option.some.injEq] at h1
          rw [← h1] at h3
          rw [h3] at hpi
          exact Option.noConfusion hpi
        · intro s' n h1 _ h3 _ _
          simp only [Option.some.injEq] at h1
          rw [← h1] at h3
          rw [h3] at hpi
          exact Option.noConfusion hpi
        · rw [hval] at h
          simp only [Prod.mk.injEq] at h
          exact absurd h.2 (fun hcon => HistoryBody.noConfusion hcon)
      | some n =>
        have hinj : ∀ s' : String, some s = some s' → pyInt s' = some n := by
          intro s' h1
          simp only [Option.some.injEq] at h1
          rw [← h1]
          exact hpi
        by_cases hn0 : n ≤ 0
        · have hval : get_history_view db (some s) =
              (400, .errorMessage "Limit deve ser positivo") := by
            simp [get_history_view, htr, hpi, hn0]
          refine ⟨fun h => ?_, ?_, fun s' n' h1 _ h3 _ => hval, ?_, ?_,
            fun st items h => ?_⟩
          · rcases h with h | h
            · exact Option.noConfusion h
            · simp only [Option.some.injEq] at h
              exact absurd h hs
          · intro s' h1 _ h3
            rw [hinj s' h1] at h3
            exact Option.noConfusion h3
          · intro s' n' h1 _ h3 h4
            have := hinj s' h1
            rw [h3] at this
            simp only [Option.some.injEq] at this
            omega
          · intro s' n' h1 _ h3 h4 _
            have := hinj s' h1
            rw [h3] at this
            simp only [Option.some.injEq] at this
            omega
          · rw [hval] at h
            simp only [Prod.mk.injEq] at h
            exact absurd h.2 (fun hcon => HistoryBody.noConfusion hcon)
        · by_cases hn100 : 100 < n
          · have hval : get_history_view db (some s) =
                (200, .entries (db.reverse.take 100)) := by
              simp [get_history_view, get_weather_history, htr, hpi, hn0, hn100]
            refine ⟨fun h => ?_, ?_, ?_, fun s' n' h1 _ h3 _ => hval, ?_,
              fun st items h => ?_⟩
            · rcases h with h | h
              · exact Option.noConfusion h
              · simp only [Option.some.injEq] at h
                exact absurd h hs
            · intro s' h1 _ h3
              rw [hinj s' h1] at h3
              exact Option.noConfusion h3
            · intro s' n' h1 _ h3 h4
              have := hinj s' h1
              rw [h3] at this
              simp only [Option.some.injEq] at this
              omega
            · intro s' n' h1 _ h3 _ h5
              have := hinj s' h1
              rw [h3] at this
              simp only [Option.some.injEq] at this
              omega
            · rw [hval] at h
              simp only [Prod.mk.injEq, HistoryBody.entries.injEq] at h
              rw [← h.2]
              exact ⟨fun hdb => by simp [hdb], fun hp => pairwise_take_reverse db 100 hp⟩
          · have hval : get_history_view db (some s) =
                (200, .entries (db.reverse.take n.toNat)) := by
              simp [get_history_view, get_weather_history, htr, hpi, hn0, hn100]
            refine ⟨fun h => ?_, ?_, ?_, ?_, fun s' n' h1 _ h3 _ _ => ?_,
              fun st items h => ?_⟩
            · rcases h with h | h
              · exact Option.noConfusion h
              · simp only [Option.some.injEq] at h
                exact absurd h hs
            · intro s' h1 _ h3
              rw [hinj s' h1] at h3
              exact Option.noConfusion h3
            · intro s' n' h1 _ h3 h4
              have := hinj s' h1
              rw [h3] at this
              simp only [Option.some.injEq] at this
              omega
            · intro s' n' h1 _ h3 h4
              have := hinj s' h1
              rw [h3] at this
              simp only [Option.some.injEq] at this
              omega
            · have := hinj s' h1
              rw [h3] at this
              simp only [Option.some.injEq] at this
              rw [this]
              exact hval
            · rw [hval] at h
              simp only [Prod.mk.injEq, HistoryBody.entries.injEq] at h
              rw [← h.2]
              exact ⟨fun hdb => by simp [hdb],
                fun hp => pairwise_take_reverse db n.toNat hp⟩

/-- C8 witness: a limit of 200 on an empty store is clamped to 100 and
answers 200 with the empty page; the underscore-grouped `1_0` parses to
10 in CPython `int()` and likewise answers 200. -/
theorem get_history_view_spec_witness :
    get_history_view [] (some "200") = (200, .entries (([] : HistoryDb).reverse.take 100)) ∧
    get_history_view [] (some "1_0") =
      (200, .entries (([] : HistoryDb).reverse.take ((10 : Int)).toNat)) :=
  ⟨(get_history_view_spec [] (some "200")).2.2.2.1 "200" 200 rfl (by decide) (by decide)
     (by decide),
   (get_history_view_spec [] (some "1_0")).2.2.2.2.1 "1_0" 10 rfl (by decide) (by decide)
     (by decide) (by decide)⟩

end WeatherApp
